import Mathlib

/-!
Shallow embedding of the ARCH runc-interception shim, for checking the
natural-language specification against the source.

The embedding follows the Python source:
* `src/runc_command_parser.py` — `parse_command` and its option scanning;
* `src/runc_handler.py` — `intercept_command`, the per-subcommand handlers,
  `_build_restore_command`, `_build_checkpoint_command`;
* `src/checkpoint_handler.py` — `validate_checkpoint`;
* `src/container_handler/flag_manager.py` — the flag store (JSON documents
  keyed by file name, with field-presence validation);
* `src/container_handler/config_handler.py` — `_get_env_var_value` and
  `add_bind_mount`.

Python dicts are modelled as insertion-ordered association lists (`dinsert`
updates an existing key in place, otherwise appends, matching dict update
and `.items()` iteration order).  The filesystem pieces the lifecycle
engine consults (container config opt-in, overlay upperdir discovery, tar
archiving outcomes, the restore child's exit status) are oracles in an
`Env` record; the flag store is explicit state threaded through the
engine, and externally visible side effects (flag-record creation,
checkpoint cleanup, work-directory deletion, rollback, the spawned restore
child) are recorded in an effect trace.
-/

namespace Arch

/-! ## String primitives

Python's string operations are modelled over the character list of a
`String`.  (The corresponding Lean core functions compute over byte
positions and do not reduce inside the kernel, which would make concrete
evaluation in proofs impossible; these list-based versions agree with them
and with the Python methods they model on all inputs used here.) -/

/-- Whether the first list is a prefix of the second. -/
def listIsPrefixOf {α : Type} [DecidableEq α] : List α → List α → Bool
  | [], _ => true
  | _ :: _, [] => false
  | a :: as, b :: bs => a = b && listIsPrefixOf as bs

/-- Python `s.startswith(pre)`. -/
def strStartsWith (s pre : String) : Bool :=
  listIsPrefixOf pre.data s.data

/-- Python `s.endswith(suf)`. -/
def strEndsWith (s suf : String) : Bool :=
  listIsPrefixOf suf.data.reverse s.data.reverse

/-- Whether `pat` occurs contiguously in `s`. -/
def listContainsSub {α : Type} [DecidableEq α] : List α → List α → Bool
  | s, pat =>
    if listIsPrefixOf pat s then true
    else
      match s with
      | [] => false
      | _ :: rest => listContainsSub rest pat

/-- Python `pat in s` substring test. -/
def strContains (s pat : String) : Bool :=
  listContainsSub s.data pat.data

/-- Accumulating worker for `strSplitOnChar`. -/
def splitOnCharAux (sep : Char) : List Char → List Char → List (List Char)
  | [], acc => [acc.reverse]
  | c :: rest, acc =>
    if c = sep then acc.reverse :: splitOnCharAux sep rest []
    else splitOnCharAux sep rest (c :: acc)

/-- Python `s.split(sep)` for a single-character separator: empty pieces
are kept, and splitting the empty string yields `[""]`. -/
def strSplitOnChar (s : String) (sep : Char) : List String :=
  (splitOnCharAux sep s.data []).map (fun l => ⟨l⟩)

/-- The whitespace characters Python `str.strip()` removes (ASCII). -/
def isPySpace (c : Char) : Bool :=
  c = ' ' ∨ c = '\t' ∨ c = '\n' ∨ c = '\r' ∨ c = '\x0b' ∨ c = '\x0c'

/-- Python `s.strip()`. -/
def strTrim (s : String) : String :=
  ⟨((s.data.dropWhile isPySpace).reverse.dropWhile isPySpace).reverse⟩

/-- Worker for `afterFirstChar`. -/
def afterFirstCharAux (sep : Char) : List Char → List Char
  | [] => []
  | c :: rest => if c = sep then rest else afterFirstCharAux sep rest

/-- Everything after the first occurrence of `sep`
(Python `s.split(sep, 1)[1]`, for callers that guarantee `sep` occurs). -/
def afterFirstChar (s : String) (sep : Char) : String :=
  ⟨afterFirstCharAux sep s.data⟩

/-- Insertion-ordered association update: replace the value in place when
the key is present, else append — a Python dict assignment `d[k] = v` (our
association lists never carry duplicate keys, so replacing the first
occurrence is replacing the only one). -/
def assocSet {α : Type} : List (String × α) → String → α → List (String × α)
  | [], k, v => [(k, v)]
  | p :: rest, k, v => if p.1 = k then (k, v) :: rest else p :: assocSet rest k v

/-- Association lookup (`d[k]` / `d.get(k)`): value at the first (only)
occurrence of the key. -/
def assocGet {α : Type} : List (String × α) → String → Option α
  | [], _ => none
  | p :: rest, k => if p.1 = k then some p.2 else assocGet rest k

/-- Key membership (`k in d`). -/
def assocHas {α : Type} : List (String × α) → String → Bool
  | [], _ => false
  | p :: rest, k => p.1 = k || assocHas rest k

/-- Key removal (`del d[k]` with a missing key ignored). -/
def assocRemove {α : Type} : List (String × α) → String → List (String × α)
  | [], _ => []
  | p :: rest, k => if p.1 = k then assocRemove rest k else p :: assocRemove rest k

/-- Python dict assignment for the parser's option dictionaries. -/
def dinsert (d : List (String × String)) (k v : String) : List (String × String) :=
  assocSet d k v

/-- Dictionary lookup (`d[k]` / `d.get(k)`). -/
def dlookup (d : List (String × String)) (k : String) : Option String :=
  assocGet d k

/-- Key membership (`k in d`). -/
def dcontains (d : List (String × String)) (k : String) : Bool :=
  assocHas d k

/-- Flatten `d.items()` into alternating `[key, value]` tokens, as the
command builders do with `cmd.extend([opt, value])`. -/
def dpairs (d : List (String × String)) : List String :=
  d.flatMap (fun p => [p.1, p.2])

/-- `RUNC_SUBCMD_BOOLEAN_FLAGS` from `src/utils/constants.py`. -/
def RUNC_SUBCMD_BOOLEAN_FLAGS : List String :=
  ["--leave-running", "--tcp-established", "--ext-unix-sk",
   "--shell-job", "--lazy-pages", "--file-locks",
   "--pre-dump", "--auto-dedup",
   "--no-pivot", "--no-new-keyring",
   "--force",
   "--debug", "--systemd-cgroup", "--help", "-h", "--version", "-v",
   "--detach",
   "--rootless",
   "--manage-cgroups-mode", "--empty-ns", "--status-fd", "--page-server"]

/-- `INTERCEPTABLE_COMMANDS` from `src/utils/constants.py`. -/
def INTERCEPTABLE_COMMANDS : List String :=
  ["create", "start", "delete", "checkpoint", "resume"]

/-- Result of `RuncCommandParser.parse_command`.  The Python `namespace`
component is called `ns` here because `namespace` is a Lean keyword. -/
structure ParsedCommand where
  subcommand : String
  global_options : List (String × String)
  subcommand_options : List (String × String)
  container_id : String
  ns : String
deriving DecidableEq, Repr

deriving instance DecidableEq for Except

/-- The global-option scanning loop of `parse_command` (lines 48-64):
consume tokens while they start with `-`; boolean flags take no value; a
following non-option token is consumed as the value; otherwise the option
is recorded as boolean.  Returns the accumulated options and the remaining
tokens. -/
def parseGlobalOpts : List String → List (String × String) →
    (List (String × String) × List String)
  | [], acc => (acc, [])
  | t :: rest, acc =>
    if strStartsWith t "-" then
      if RUNC_SUBCMD_BOOLEAN_FLAGS.contains t then
        parseGlobalOpts rest (dinsert acc t "")
      else
        match rest with
        | [] => (dinsert acc t "", [])
        | v :: rest2 =>
          if strStartsWith v "-" then
            parseGlobalOpts (v :: rest2) (dinsert acc t "")
          else
            parseGlobalOpts rest2 (dinsert acc t v)
    else
      (acc, t :: rest)

/-- The subcommand-option scanning loop of `parse_command` (lines 78-97):
same option rule, but non-option tokens are skipped and scanning continues
to the end of the argument list. -/
def parseSubOpts : List String → List (String × String) → List (String × String)
  | [], acc => acc
  | t :: rest, acc =>
    if strStartsWith t "-" then
      if RUNC_SUBCMD_BOOLEAN_FLAGS.contains t then
        parseSubOpts rest (dinsert acc t "")
      else
        match rest with
        | [] => dinsert acc t ""
        | v :: rest2 =>
          if strStartsWith v "-" then
            parseSubOpts (v :: rest2) (dinsert acc t "")
          else
            parseSubOpts rest2 (dinsert acc t v)
    else
      parseSubOpts rest acc

/-- Namespace extraction of `parse_command` (lines 104-111): `"default"`
unless `--root` was recorded with a non-empty value that does not end in
`/`, in which case the final `/`-separated segment of that value. -/
def extractNamespace (gopts : List (String × String)) : String :=
  match dlookup gopts "--root" with
  | none => "default"
  | some root =>
    if root ≠ "" ∧ ¬ strEndsWith root "/" then
      (strSplitOnChar root '/').getLastD "default"
    else
      "default"

/-- `RuncCommandParser.parse_command`.  Empty argv raises
`ValueError("Empty command")`, modelled as `Except.error`.  A parse that
exhausts argv while scanning global options is a global-only invocation
and returns an empty subcommand with namespace `"default"` (line 70).
The container id is the last element of the *original* argv when it does
not start with `-` (lines 100-102). -/
def parse_command (args : List String) : Except String ParsedCommand :=
  match args with
  | [] => .error "Empty command"
  | _cmd :: rest =>
    let scanned := parseGlobalOpts rest []
    match scanned.2 with
    | [] => .ok ⟨"", scanned.1, [], "", "default"⟩
    | sub :: rest2 =>
      let sopts := parseSubOpts rest2 []
      let cid :=
        match args.getLast? with
        | some last => if strStartsWith last "-" then "" else last
        | none => ""
      .ok ⟨sub, scanned.1, sopts, cid, extractNamespace scanned.1⟩

/-- `RuncHandler._build_restore_command` (lines 51-73): real runc path,
every global option as a `[key, value]` token pair, `restore`, every
subcommand option as a `[key, value]` pair, `--detach` when that key is
absent from the subcommand options, then `--image-path <path>` and the
container id. -/
def build_restore_command (runcPath containerId : String)
    (gopts sopts : List (String × String)) (checkpointPath : String) : List String :=
  [runcPath] ++ dpairs gopts ++ ["restore"] ++ dpairs sopts
    ++ (if dcontains sopts "--detach" then [] else ["--detach"])
    ++ ["--image-path", checkpointPath, containerId]

/-- `RuncHandler._build_checkpoint_command` (lines 327-354): global
options as `[key, value]` pairs, `checkpoint`, subcommand options with
`--work-path` and `--leave-running` dropped, `--image-path` re-pointed at
the resolved checkpoint path, empty-valued (boolean) subcommand options
emitted as a single token, then the container id.  The real runc path is
*not* part of this list; `_execute_command` prepends it at exec time. -/
def build_checkpoint_command (containerId : String)
    (gopts sopts : List (String × String)) (checkpointPath : String) : List String :=
  dpairs gopts ++ ["checkpoint"]
    ++ sopts.flatMap (fun p =>
        if p.1 = "--work-path" ∨ p.1 = "--leave-running" then []
        else if p.1 = "--image-path" then [p.1, checkpointPath]
        else if p.2 = "" then [p.1]
        else [p.1, p.2])
    ++ [containerId]

/-! ## Flag store (`src/container_handler/flag_manager.py`)

A flag record is a JSON document; it is modelled as an insertion-ordered
association list of JSON values so that the required-field validation and
the possibility of foreign or missing fields are representable.  The store
maps file names (`{namespace}_{container_id}.json`) to documents. -/

/-- JSON values occurring in flag records. -/
inductive JVal where
  | s (v : String)
  | b (v : Bool)
  | i (v : Int)
  | null
deriving DecidableEq, Repr

/-- A JSON object: insertion-ordered field list. -/
abbrev JObj := List (String × JVal)

/-- Field update on a JSON object (`flag_data[k] = v`): in-place when the
field exists, appended otherwise. -/
def jset (o : JObj) (k : String) (v : JVal) : JObj :=
  assocSet o k v

/-- Field lookup on a JSON object. -/
def jget (o : JObj) (k : String) : Option JVal :=
  assocGet o k

/-- Python truthiness of a JSON value, as applied by the lifecycle engine
to flag getters' results (`if self.flag_manager.get_skip_start(...)`). -/
def truthy : JVal → Bool
  | .s v => v ≠ ""
  | .b v => v
  | .i v => v ≠ 0
  | .null => false

/-- The flag store: file name to document.  Keys are full file names so
that the `{ns}_{id}.json` naming scheme is preserved. -/
abbrev FlagStore := List (String × JObj)

/-- Store lookup by file name. -/
def storeLookup (st : FlagStore) (file : String) : Option JObj :=
  assocGet st file

/-- Store update by file name (overwrite-in-place semantics of
`_write_flag`, which opens the file with mode `w`). -/
def storeSet (st : FlagStore) (file : String) (o : JObj) : FlagStore :=
  assocSet st file o

/-- `ContainerFlagManager.REQUIRED_FIELDS`. -/
def REQUIRED_FIELDS : List String :=
  ["version", "skip_start", "skip_resume", "keep_resources", "exit_code", "last_updated"]

/-- `ContainerFlagManager._validate_flag`: all required fields present. -/
def validate_flag (o : JObj) : Bool :=
  REQUIRED_FIELDS.all (fun f => (jget o f).isSome)

/-- `ContainerFlagManager._create_initial_flag`; the wall-clock timestamp
`datetime.now().isoformat()` is passed in as `now`. -/
def create_initial_flag (now : String) : JObj :=
  [("version", .s "1.0"),
   ("skip_start", .b false),
   ("skip_resume", .b false),
   ("keep_resources", .b false),
   ("exit_code", .null),
   ("last_updated", .s now)]

/-- `ContainerFlagManager._get_flag_file`: `{ns}_{id}.json`. -/
def flag_file (ns containerId : String) : String :=
  ns ++ "_" ++ containerId ++ ".json"

/-- `ContainerFlagManager.has_flag`: the flag file exists. -/
def has_flag (st : FlagStore) (ns containerId : String) : Bool :=
  assocHas st (flag_file ns containerId)

/-- `ContainerFlagManager._read_flag`: `none` when the file is missing or
fails the required-field validation (both are logged and swallowed). -/
def read_flag (st : FlagStore) (file : String) : Option JObj :=
  match storeLookup st file with
  | none => none
  | some o => if validate_flag o then some o else none

/-- `ContainerFlagManager._write_flag`: raises `ValueError` on a document
that fails validation, otherwise overwrites the file. -/
def write_flag (st : FlagStore) (file : String) (o : JObj) : Except String FlagStore :=
  if validate_flag o then .ok (storeSet st file o)
  else .error "Invalid flag structure"

/-- `ContainerFlagManager.create_flag`: write a freshly initialized
document, overwriting whatever was there. -/
def create_flag (st : FlagStore) (ns containerId now : String) : Except String FlagStore :=
  write_flag st (flag_file ns containerId) (create_initial_flag now)

/-- `ContainerFlagManager._get_flag`: default when the file is missing or
invalid, else the field's value with the same default for a missing
field. -/
def get_flag (st : FlagStore) (ns containerId field : String) (dflt : JVal) : JVal :=
  match read_flag st (flag_file ns containerId) with
  | none => dflt
  | some o => (jget o field).getD dflt

/-- `ContainerFlagManager._set_flag`: a silent no-op when the flag file
does not exist or cannot be read/validated; otherwise update the field and
`last_updated` and write back. -/
def set_flag (st : FlagStore) (ns containerId field : String) (v : JVal)
    (now : String) : Except String FlagStore :=
  if ¬ has_flag st ns containerId then .ok st
  else
    match read_flag st (flag_file ns containerId) with
    | none => .ok st
    | some o =>
      write_flag st (flag_file ns containerId)
        (jset (jset o field v) "last_updated" (.s now))

/-- `ContainerFlagManager.set_skip_start`. -/
def set_skip_start (st : FlagStore) (ns containerId : String) (v : Bool)
    (now : String) : Except String FlagStore :=
  set_flag st ns containerId "skip_start" (.b v) now

/-- `ContainerFlagManager.set_skip_resume`. -/
def set_skip_resume (st : FlagStore) (ns containerId : String) (v : Bool)
    (now : String) : Except String FlagStore :=
  set_flag st ns containerId "skip_resume" (.b v) now

/-- `ContainerFlagManager.set_keep_resources`. -/
def set_keep_resources (st : FlagStore) (ns containerId : String) (v : Bool)
    (now : String) : Except String FlagStore :=
  set_flag st ns containerId "keep_resources" (.b v) now

/-- `ContainerFlagManager.set_exit_code`. -/
def set_exit_code (st : FlagStore) (ns containerId : String) (code : Int)
    (now : String) : Except String FlagStore :=
  set_flag st ns containerId "exit_code" (.i code) now

/-- `ContainerFlagManager.get_skip_start` (default `False`). -/
def get_skip_start (st : FlagStore) (ns containerId : String) : JVal :=
  get_flag st ns containerId "skip_start" (.b false)

/-- `ContainerFlagManager.get_skip_resume` (default `False`). -/
def get_skip_resume (st : FlagStore) (ns containerId : String) : JVal :=
  get_flag st ns containerId "skip_resume" (.b false)

/-- `ContainerFlagManager.get_keep_resources` (default `False`). -/
def get_keep_resources (st : FlagStore) (ns containerId : String) : JVal :=
  get_flag st ns containerId "keep_resources" (.b false)

/-- `ContainerFlagManager.clear_flag`: remove the file; a missing file is
not an error. -/
def clear_flag (st : FlagStore) (ns containerId : String) : FlagStore :=
  assocRemove st (flag_file ns containerId)

/-! ## Lifecycle engine (`src/runc_handler.py`)

The engine's collaborators that only feed it booleans or paths (container
config opt-in, checkpoint-path resolution, overlay upperdir discovery,
bind-mount outcome, checkpoint validation, tar pack/unpack outcomes, the
spawned restore child's exit status) are oracles collected in `Env`.  The
flag store is threaded explicitly and externally visible side effects are
recorded in a trace. -/

/-- Oracles for the engine's collaborators, in the order the handlers
consult them.  Functions take `(container_id, namespace)` in the argument
order of the corresponding Python calls. -/
structure Env where
  realRunc : String
  archEnabled : String → String → Bool
  checkpointPath : String → String → Option String
  upperdir : String → String → Option String
  addBindMount : String → String → Bool
  validateCkpt : String → Bool
  restoreFiles : String → String → Bool
  restoreChildOk : List String → Bool
  saveFiles : String → String → Bool

/-- Externally visible side effects of one engine invocation. -/
inductive Effect where
  | createdFlag (ns containerId : String)
  | cleanedCheckpoint (path : String)
  | deletedWorkDir (containerId ns : String)
  | rollback (upperdir : String)
  | spawnedRestore (cmd : List String)
deriving DecidableEq, Repr

/-- How one engine invocation ends: `exec args` replaces the process image
with the real runtime invoked as `[realRunc] ++ args`
(`_execute_command`); `ret code` returns `code` from `intercept_command`
without touching the runtime. -/
inductive EngineResult where
  | exec (args : List String)
  | ret (code : Int)
deriving DecidableEq, Repr

/-- `RuncHandler._handle_create_command` (lines 105-148).  Missing
checkpoint path or upperdir, a failed bind mount, or an invalid checkpoint
pass through.  A failed file restore rolls back the upperdir and passes
through.  Otherwise the restore child is spawned: on exit 0 the
`skip_start` latch is set and 0 is returned; on non-zero exit the engine
passes through (no rollback on that branch).  A raised flag-store write
error is caught by the surrounding `try` and leads to rollback and
pass-through. -/
def handle_create_command (env : Env) (st : FlagStore) (now : String)
    (pc : ParsedCommand) (arg : List String) :
    EngineResult × FlagStore × List Effect :=
  match env.checkpointPath pc.container_id pc.ns with
  | none => (.exec arg, st, [])
  | some cp =>
    match env.upperdir pc.container_id pc.ns with
    | none => (.exec arg, st, [])
    | some up =>
      if ¬ env.addBindMount pc.container_id pc.ns then (.exec arg, st, [])
      else if ¬ env.validateCkpt cp then (.exec arg, st, [])
      else if ¬ env.restoreFiles cp up then (.exec arg, st, [.rollback up])
      else
        let rcmd := build_restore_command env.realRunc pc.container_id
          pc.global_options pc.subcommand_options cp
        if env.restoreChildOk rcmd then
          match set_skip_start st pc.ns pc.container_id true now with
          | .ok st1 => (.ret 0, st1, [.spawnedRestore rcmd])
          | .error _ => (.exec arg, st, [.spawnedRestore rcmd, .rollback up])
        else
          (.exec arg, st, [.spawnedRestore rcmd])

/-- `RuncHandler._handle_start_command` (lines 150-163): consume the
`skip_start` latch and return 0, else pass through. -/
def handle_start_command (st : FlagStore) (now : String)
    (pc : ParsedCommand) (arg : List String) :
    EngineResult × FlagStore × List Effect :=
  if truthy (get_skip_start st pc.ns pc.container_id) then
    match set_skip_start st pc.ns pc.container_id false now with
    | .ok st1 => (.ret 0, st1, [])
    | .error _ => (.exec arg, st, [])
  else
    (.exec arg, st, [])

/-- `RuncHandler._handle_resume_command` (lines 165-178): consume the
`skip_resume` latch and return 0, else pass through. -/
def handle_resume_command (st : FlagStore) (now : String)
    (pc : ParsedCommand) (arg : List String) :
    EngineResult × FlagStore × List Effect :=
  if truthy (get_skip_resume st pc.ns pc.container_id) then
    match set_skip_resume st pc.ns pc.container_id false now with
    | .ok st1 => (.ret 0, st1, [])
    | .error _ => (.exec arg, st, [])
  else
    (.exec arg, st, [])

/-- `RuncHandler._handle_checkpoint_command` (lines 288-325): resolve the
paths, save the writable layer, set the `skip_resume` and `keep_resources`
latches, then exec the modified checkpoint command. -/
def handle_checkpoint_command (env : Env) (st : FlagStore) (now : String)
    (pc : ParsedCommand) (arg : List String) :
    EngineResult × FlagStore × List Effect :=
  match env.checkpointPath pc.container_id pc.ns with
  | none => (.exec arg, st, [])
  | some cp =>
    match env.upperdir pc.container_id pc.ns with
    | none => (.exec arg, st, [])
    | some up =>
      if ¬ env.saveFiles up cp then (.exec arg, st, [])
      else
        match set_skip_resume st pc.ns pc.container_id true now with
        | .error _ => (.exec arg, st, [])
        | .ok st1 =>
          match set_keep_resources st1 pc.ns pc.container_id true now with
          | .error _ => (.exec arg, st1, [])
          | .ok st2 =>
            (.exec (build_checkpoint_command pc.container_id
              pc.global_options pc.subcommand_options cp), st2, [])

/-- `RuncHandler._handle_delete_command` (lines 209-227) together with
`_cleanup_container_resources` (lines 195-207): when a flag file exists
and `keep_resources` is falsy, clean up the checkpoint directory (when a
path resolves) and the work directory; then remove the flag file; always
pass through to the real delete. -/
def handle_delete_command (env : Env) (st : FlagStore)
    (pc : ParsedCommand) (arg : List String) :
    EngineResult × FlagStore × List Effect :=
  if has_flag st pc.ns pc.container_id then
    let effs :=
      if ¬ truthy (get_keep_resources st pc.ns pc.container_id) then
        (match env.checkpointPath pc.container_id pc.ns with
         | some cp => [Effect.cleanedCheckpoint cp]
         | none => []) ++ [Effect.deletedWorkDir pc.container_id pc.ns]
      else []
    (.exec arg, clear_flag st pc.ns pc.container_id, effs)
  else
    (.exec arg, st, [])

/-- The `if/elif` dispatch of `intercept_command` (lines 271-283). -/
def dispatch_command (env : Env) (st : FlagStore) (now : String)
    (pc : ParsedCommand) (arg : List String) :
    EngineResult × FlagStore × List Effect :=
  if pc.subcommand = "create" then handle_create_command env st now pc arg
  else if pc.subcommand = "start" then handle_start_command st now pc arg
  else if pc.subcommand = "delete" then handle_delete_command env st pc arg
  else if pc.subcommand = "checkpoint" then handle_checkpoint_command env st now pc arg
  else if pc.subcommand = "resume" then handle_resume_command st now pc arg
  else (.exec arg, st, [])

/-- `RuncHandler.intercept_command` (lines 241-286).  A parse failure is
caught and the original command (minus the program name) is passed
through; non-intercepted subcommands and containers that are not opted in
pass through; otherwise a flag record is created when missing (for *every*
intercepted subcommand, including `delete`) and the subcommand handler
runs.  A raised flag-store error at record creation is caught by the outer
`try` and leads to pass-through. -/
def intercept_command (env : Env) (st : FlagStore) (now : String)
    (args : List String) : EngineResult × FlagStore × List Effect :=
  match parse_command args with
  | .error _ => (.exec (args.drop 1), st, [])
  | .ok pc =>
    if ¬ INTERCEPTABLE_COMMANDS.contains pc.subcommand then
      (.exec (args.drop 1), st, [])
    else if ¬ env.archEnabled pc.container_id pc.ns then
      (.exec (args.drop 1), st, [])
    else if ¬ has_flag st pc.ns pc.container_id then
      match create_flag st pc.ns pc.container_id now with
      | .error _ => (.exec (args.drop 1), st, [])
      | .ok st1 =>
        let r := dispatch_command env st1 now pc (args.drop 1)
        (r.1, r.2.1, Effect.createdFlag pc.ns pc.container_id :: r.2.2)
    else
      dispatch_command env st now pc (args.drop 1)

/-! ## Checkpoint validation (`src/checkpoint_handler.py`)

`validate_checkpoint` reads `dump.log`; the filesystem is modelled as a
map from paths to text contents. -/

/-- A text filesystem: path to file contents; absence means the path does
not exist. -/
abbrev TextFS := List (String × String)

/-- Filesystem lookup. -/
def fsLookup (fs : TextFS) (path : String) : Option String :=
  (fs.find? (fun p => p.1 = path)).map (fun p => p.2)

/-- `os.path.join dir file` for a relative `file`. -/
def pyJoin (dir file : String) : String :=
  if dir = "" then file
  else if strEndsWith dir "/" then dir ++ file
  else dir ++ "/" ++ file

/-- Python `f.readlines()`: split at newlines, each element keeping its
trailing newline, with no empty final element (an empty file yields the
empty list). -/
def pyReadlines (s : String) : List String :=
  let parts := strSplitOnChar s '\n'
  let init := parts.dropLast.map (fun p => p ++ "\n")
  match parts.getLast? with
  | some last => if last = "" then init else init ++ [last]
  | none => init

/-- `CheckpointHandler.validate_checkpoint` (lines 15-33): false when
`dump.log` is missing; otherwise take `readlines()[-1]` — the literally
last line, whatever it contains — strip it, and test for the success
phrase.  The `IndexError` on an empty file is caught by the `except` and
yields false. -/
def validate_checkpoint (fs : TextFS) (checkpoint_path : String) : Bool :=
  match fsLookup fs (pyJoin checkpoint_path "dump.log") with
  | none => false
  | some content =>
    match (pyReadlines content).getLast? with
    | none => false
    | some line => strContains (strTrim line) "Dumping finished successfully"

/-! ## Config reader (`src/container_handler/config_handler.py`) -/

/-- An OCI mount entry as `add_bind_mount` inspects and appends it. -/
structure OciMount where
  mtype : String
  source : String
  destination : String
  options : List String
deriving DecidableEq, Repr

/-- The `process` object of an OCI config: `env` and `cwd` may be
absent. -/
structure OciProcess where
  env : Option (List String)
  cwd : Option String
deriving DecidableEq, Repr

/-- An OCI container config as the config reader consumes it: `process`
and `mounts` may be absent. -/
structure OciConfig where
  process : Option OciProcess
  mounts : Option (List OciMount)
deriving DecidableEq, Repr

/-- The world the config reader sees: parsed `config.json` documents by
path. -/
structure ConfigWorld where
  configs : List (String × OciConfig)
deriving DecidableEq, Repr

/-- `CONTAINER_CONFIG_PATHS` from `src/utils/constants.py`, instantiated
at `(namespace, container_id)`. -/
def container_config_paths (ns containerId : String) : List String :=
  ["/run/containerd/io.containerd.runtime.v2.task/" ++ ns ++ "/" ++ containerId ++ "/config.json",
   "/run/containerd/runc/" ++ ns ++ "/" ++ containerId ++ "/config.json",
   "/run/runc/" ++ ns ++ "/" ++ containerId ++ "/config.json"]

/-- `ContainerConfigHandler._find_config_path`: first extant candidate. -/
def find_config_path (w : ConfigWorld) (ns containerId : String) : Option String :=
  (container_config_paths ns containerId).find?
    (fun p => w.configs.any (fun q => q.1 = p))

/-- `ContainerConfigHandler._read_config`: the parsed document. -/
def read_config (w : ConfigWorld) (path : String) : Option OciConfig :=
  (w.configs.find? (fun q => q.1 = path)).map (fun q => q.2)

/-- `ContainerConfigHandler._get_env_var_value` (lines 57-91): walk the
config's `process.env` list for the first `NAME=...` entry and return the
suffix after the first `=`; every failure (blank identity, no config,
no `process` object) returns the supplied default. -/
def get_env_var_value (w : ConfigWorld) (containerId ns varName : String)
    (dflt : Option String) : Option String :=
  if containerId = "" ∨ ns = "" then dflt
  else
    match find_config_path w ns containerId with
    | none => dflt
    | some path =>
      match read_config w path with
      | none => dflt
      | some cfg =>
        match cfg.process with
        | none => dflt
        | some proc =>
          match (proc.env.getD []).find? (fun v => strStartsWith v (varName ++ "=")) with
          | some entry => some (afterFirstChar entry '=')
          | none => dflt

/-- `ContainerConfigHandler.add_bind_mount` (lines 154-247).  When
`ARCH_SHAREDFS_HOST_PATH` is unset (or empty, Python falsiness), return
`True` immediately with the world untouched (line 169).  When it is set,
line 172 calls `self._get_env_path`, a method that does not exist anywhere
on `ContainerConfigHandler`, so that branch raises `AttributeError` before
reaching any filesystem or config mutation; the mutation code below line
172 is unreachable in the source as it stands. -/
def add_bind_mount (w : ConfigWorld) (containerId ns : String) :
    Except String (Bool × ConfigWorld) :=
  match get_env_var_value w containerId ns "ARCH_SHAREDFS_HOST_PATH" none with
  | none => .ok (true, w)
  | some s =>
    if s = "" then .ok (true, w)
    else .error "AttributeError"

/-! ## Definitions transcribed from the specification's words

These are *not* translations of the source; they state what the claims
under scrutiny say, for comparison against the source-derived definitions
above. -/

/-- Spec wording of the restore command (claim C3): the parsed options
with *no extra tokens*, so an empty-valued (boolean) option contributes a
single token. -/
def restore_command_spec (runcPath containerId : String)
    (gopts sopts : List (String × String)) (checkpointPath : String) : List String :=
  [runcPath]
    ++ gopts.flatMap (fun p => if p.2 = "" then [p.1] else [p.1, p.2])
    ++ ["restore"]
    ++ sopts.flatMap (fun p => if p.2 = "" then [p.1] else [p.1, p.2])
    ++ (if dcontains sopts "--detach" then [] else ["--detach"])
    ++ ["--image-path", checkpointPath, containerId]

/-- Spec wording of the modified checkpoint command (claim C6): the real
runtime path, the global options *with boolean flags as single tokens*,
`checkpoint`, the filtered/substituted subcommand options, the container
id. -/
def checkpoint_command_spec (runcPath containerId : String)
    (gopts sopts : List (String × String)) (checkpointPath : String) : List String :=
  [runcPath]
    ++ gopts.flatMap (fun p => if p.2 = "" then [p.1] else [p.1, p.2])
    ++ ["checkpoint"]
    ++ sopts.flatMap (fun p =>
        if p.1 = "--work-path" ∨ p.1 = "--leave-running" then []
        else if p.1 = "--image-path" then [p.1, checkpointPath]
        else if p.2 = "" then [p.1]
        else [p.1, p.2])
    ++ [containerId]

/-- Spec wording of namespace extraction (claim C7): whenever `--root` is
present with a value not ending in `/`, the namespace is that value's
final path segment; otherwise `"default"`. -/
def namespace_spec (gopts : List (String × String)) : String :=
  match dlookup gopts "--root" with
  | none => "default"
  | some root =>
    if strEndsWith root "/" then "default"
    else (strSplitOnChar root '/').getLastD "default"

/-- Spec wording of checkpoint validation (claim C5): `dump.log` exists
and its final *non-empty* line contains the success phrase. -/
def validate_checkpoint_spec (fs : TextFS) (checkpoint_path : String) : Bool :=
  match fsLookup fs (pyJoin checkpoint_path "dump.log") with
  | none => false
  | some content =>
    match ((pyReadlines content).filter (fun l => strTrim l ≠ "")).getLast? with
    | none => false
    | some line => strContains line "Dumping finished successfully"

/-! ## Concrete worlds used by counterexamples and witnesses -/

/-- An environment in which every collaborator succeeds: the container is
opted in, a checkpoint path and upperdir resolve, the bind mount, the
checkpoint validation, the file restore, the restore child and the file
save all succeed. -/
def envDemo : Env where
  realRunc := "/usr/local/bin/runc.real"
  archEnabled := fun _ _ => true
  checkpointPath := fun _ _ => some "/cp"
  upperdir := fun _ _ => some "/up"
  addBindMount := fun _ _ => true
  validateCkpt := fun _ => true
  restoreFiles := fun _ _ => true
  restoreChildOk := fun _ => true
  saveFiles := fun _ _ => true

/-- A checkpoint directory whose `dump.log` reports success but ends with
a blank line, so its *last* line differs from its last *non-empty*
line. -/
def fsDemo : TextFS :=
  [("/cp/dump.log", "Dumping finished successfully\n\n")]

/-- A container config world: the container exists and is opted in, but
`ARCH_SHAREDFS_HOST_PATH` is not among its environment entries. -/
def worldDemo : ConfigWorld :=
  ⟨[("/run/runc/default/c1/config.json",
     ⟨some ⟨some ["PATH=/usr/bin", "ARCH_ENABLE=1"], some "/"⟩, some []⟩)]⟩

/-! ## Association-list lemmas -/

theorem assocGet_assocSet_self {α : Type} (l : List (String × α)) (k : String) (v : α) :
    assocGet (assocSet l k v) k = some v := by
  induction l with
  | nil => simp [assocSet, assocGet]
  | cons p rest ih =>
    by_cases h : p.1 = k
    · simp [assocSet, assocGet, h]
    · simpa [assocSet, assocGet, h] using ih

theorem assocGet_assocSet_ne {α : Type} (l : List (String × α)) (k k' : String) (v : α)
    (h : k' ≠ k) : assocGet (assocSet l k v) k' = assocGet l k' := by
  have hkk : ¬ (k = k') := fun e => h e.symm
  induction l with
  | nil => simp [assocSet, assocGet, hkk]
  | cons p rest ih =>
    by_cases hp : p.1 = k
    · have hp' : ¬ (p.1 = k') := by rw [hp]; exact hkk
      simp [assocSet, assocGet, hp, hkk, hp']
    · by_cases hp' : p.1 = k'
      · simp [assocSet, assocGet, hp, hp', h]
      · simpa [assocSet, assocGet, hp, hp'] using ih

theorem assocHas_assocSet_self {α : Type} (l : List (String × α)) (k : String) (v : α) :
    assocHas (assocSet l k v) k = true := by
  induction l with
  | nil => simp [assocSet, assocHas]
  | cons p rest ih =>
    by_cases h : p.1 = k
    · simp [assocSet, assocHas, h]
    · simpa [assocSet, assocHas, h] using ih

theorem assocRemove_assocSet_of_not_has {α : Type} (l : List (String × α)) (k : String)
    (v : α) (h : assocHas l k = false) : assocRemove (assocSet l k v) k = l := by
  induction l with
  | nil => simp [assocSet, assocRemove]
  | cons p rest ih =>
    simp [assocHas] at h
    simp [assocSet, assocRemove, h.1]
    have := ih (by simpa [assocHas] using h.2)
    simpa [assocRemove, h.1] using this

/-! ## Flag-store lemmas -/

theorem validate_create_initial (now : String) :
    validate_flag (create_initial_flag now) = true := rfl

theorem create_flag_eq (st : FlagStore) (ns cid now : String) :
    create_flag st ns cid now =
      .ok (storeSet st (flag_file ns cid) (create_initial_flag now)) := by
  simp [create_flag, write_flag, validate_create_initial]

theorem read_flag_storeSet_self (st : FlagStore) (f : String) (o : JObj)
    (h : validate_flag o = true) : read_flag (storeSet st f o) f = some o := by
  simp [read_flag, storeLookup, storeSet, assocGet_assocSet_self, h]

theorem has_flag_storeSet_self (st : FlagStore) (ns cid : String) (o : JObj) :
    has_flag (storeSet st (flag_file ns cid) o) ns cid = true := by
  simp [has_flag, storeSet, assocHas_assocSet_self]

theorem read_flag_valid (st : FlagStore) (f : String) (o : JObj)
    (h : read_flag st f = some o) : validate_flag o = true := by
  unfold read_flag at h
  cases hl : storeLookup st f with
  | none => rw [hl] at h; cases h
  | some o' =>
    rw [hl] at h
    by_cases hv : validate_flag o' = true
    · have : o' = o := by simpa [hv] using h
      rw [← this]; exact hv
    · simp [hv] at h

theorem validate_flag_jset (o : JObj) (k : String) (v : JVal)
    (h : validate_flag o = true) : validate_flag (jset o k v) = true := by
  simp only [validate_flag, List.all_eq_true] at h ⊢
  intro f hf
  by_cases hk : f = k
  · subst hk
    simp [jget, jset, assocGet_assocSet_self]
  · rw [jget, jset, assocGet_assocSet_ne _ _ _ _ hk]
    exact h f hf

theorem set_flag_of_read (st : FlagStore) (ns cid field : String) (v : JVal) (now : String)
    (o : JObj) (hh : has_flag st ns cid = true)
    (hr : read_flag st (flag_file ns cid) = some o) :
    set_flag st ns cid field v now =
      .ok (storeSet st (flag_file ns cid)
        (jset (jset o field v) "last_updated" (.s now))) := by
  have hv : validate_flag o = true := read_flag_valid _ _ _ hr
  have hv2 : validate_flag (jset (jset o field v) "last_updated" (.s now)) = true :=
    validate_flag_jset _ _ _ (validate_flag_jset _ _ _ hv)
  simp [set_flag, hh, hr, write_flag, hv2]

theorem set_flag_isOk (st : FlagStore) (ns cid field : String) (v : JVal) (now : String) :
    ∃ st', set_flag st ns cid field v now = .ok st' := by
  by_cases hh : has_flag st ns cid = true
  · cases hr : read_flag st (flag_file ns cid) with
    | none => exact ⟨st, by simp [set_flag, hh, hr]⟩
    | some o => exact ⟨_, set_flag_of_read st ns cid field v now o hh hr⟩
  · have hh' : has_flag st ns cid = false := by
      cases hb : has_flag st ns cid
      · rfl
      · exact absurd hb hh
    exact ⟨st, by simp [set_flag, hh']⟩

theorem truthy_get_keep_resources_fresh (st : FlagStore) (ns cid now : String) :
    truthy (get_keep_resources
      (storeSet st (flag_file ns cid) (create_initial_flag now)) ns cid) = false := by
  have h := read_flag_storeSet_self st (flag_file ns cid) (create_initial_flag now)
    (validate_create_initial now)
  simp only [get_keep_resources, get_flag, h]
  simp [create_initial_flag, jget, assocGet, truthy]

theorem clear_flag_storeSet_fresh (st : FlagStore) (ns cid : String) (o : JObj)
    (h : has_flag st ns cid = false) :
    clear_flag (storeSet st (flag_file ns cid) o) ns cid = st := by
  simpa [clear_flag, storeSet, has_flag] using
    assocRemove_assocSet_of_not_has st (flag_file ns cid) o (by simpa [has_flag] using h)

/-! ## Option-token lemmas -/

theorem flatMap_single_eq_dpairs (l : List (String × String))
    (h : ∀ p ∈ l, p.2 ≠ "") :
    l.flatMap (fun p => if p.2 = "" then [p.1] else [p.1, p.2]) = dpairs l := by
  induction l with
  | nil => rfl
  | cons a t ih =>
    have ha : a.2 ≠ "" := h a (by simp)
    have ht := ih (fun p hp => h p (by simp [hp]))
    simp only [dpairs, List.flatMap_cons] at ht ⊢
    rw [if_neg ha, ht]

theorem extractNamespace_eq_spec (gopts : List (String × String))
    (h : dlookup gopts "--root" ≠ some "") :
    extractNamespace gopts = namespace_spec gopts := by
  unfold extractNamespace namespace_spec
  cases hl : dlookup gopts "--root" with
  | none => rfl
  | some root =>
    have hr : root ≠ "" := by
      intro e
      subst e
      exact h hl
    by_cases he : strEndsWith root "/"
    · simp [he]
    · simp [he, hr]

theorem assocGet_none_of_not_has {α : Type} (l : List (String × α)) (k : String)
    (h : assocHas l k = false) : assocGet l k = none := by
  induction l with
  | nil => rfl
  | cons p rest ih =>
    simp [assocHas] at h
    simp [assocGet, h.1, ih h.2]

theorem read_flag_none_of_no_flag (st : FlagStore) (ns cid : String)
    (h : has_flag st ns cid = false) :
    read_flag st (flag_file ns cid) = none := by
  simp [read_flag, storeLookup, assocGet_none_of_not_has st (flag_file ns cid)
    (by simpa [has_flag] using h)]

theorem intercept_reduces_to_dispatch :
    ∀ (env : Env) (st : FlagStore) (now : String) (args : List String) (pc : ParsedCommand),
      parse_command args = .ok pc →
      INTERCEPTABLE_COMMANDS.contains pc.subcommand = true →
      env.archEnabled pc.container_id pc.ns = true →
      (has_flag st pc.ns pc.container_id = true ∧
        intercept_command env st now args =
          dispatch_command env st now pc (args.drop 1)) ∨
      (has_flag st pc.ns pc.container_id = false ∧
        intercept_command env st now args =
          ((dispatch_command env (storeSet st (flag_file pc.ns pc.container_id)
              (create_initial_flag now)) now pc (args.drop 1)).1,
           (dispatch_command env (storeSet st (flag_file pc.ns pc.container_id)
              (create_initial_flag now)) now pc (args.drop 1)).2.1,
           Effect.createdFlag pc.ns pc.container_id ::
             (dispatch_command env (storeSet st (flag_file pc.ns pc.container_id)
                (create_initial_flag now)) now pc (args.drop 1)).2.2)) := by
  intro env st now args pc hp hc hen
  unfold intercept_command
  rw [hp]
  simp only [hc, hen]
  by_cases hf : has_flag st pc.ns pc.container_id = true
  · left
    refine ⟨hf, ?_⟩
    simp [hf]
  · right
    have hf' : has_flag st pc.ns pc.container_id = false := by
      cases hb : has_flag st pc.ns pc.container_id
      · rfl
      · exact absurd hb hf
    refine ⟨hf', ?_⟩
    rw [create_flag_eq]
    simp [hf']

theorem dispatch_checkpoint :
    ∀ (env : Env) (st : FlagStore) (now : String) (pc : ParsedCommand) (arg : List String)
      (cp up : String),
      pc.subcommand = "checkpoint" →
      env.checkpointPath pc.container_id pc.ns = some cp →
      env.upperdir pc.container_id pc.ns = some up →
      env.saveFiles up cp = true →
      ∃ st1 st2,
        set_skip_resume st pc.ns pc.container_id true now = .ok st1 ∧
        set_keep_resources st1 pc.ns pc.container_id true now = .ok st2 ∧
        dispatch_command env st now pc arg =
          (.exec (build_checkpoint_command pc.container_id pc.global_options
            pc.subcommand_options cp), st2, []) := by
  intro env st now pc arg cp up hsub hcp hup hsave
  obtain ⟨st1, h1⟩ := set_flag_isOk st pc.ns pc.container_id "skip_resume" (.b true) now
  obtain ⟨st2, h2⟩ := set_flag_isOk st1 pc.ns pc.container_id "keep_resources" (.b true) now
  have h1' : set_skip_resume st pc.ns pc.container_id true now = .ok st1 := h1
  have h2' : set_keep_resources st1 pc.ns pc.container_id true now = .ok st2 := h2
  refine ⟨st1, st2, h1', h2', ?_⟩
  unfold dispatch_command
  rw [hsub, if_neg (by decide), if_neg (by decide), if_neg (by decide), if_pos rfl]
  unfold handle_checkpoint_command
  rw [hcp, hup]
  simp only [hsave, not_true, if_false, h1', h2']

theorem jget_jset_self (o : JObj) (k : String) (v : JVal) :
    jget (jset o k v) k = some v :=
  assocGet_assocSet_self o k v

theorem jget_jset_ne (o : JObj) (k k' : String) (v : JVal) (h : k' ≠ k) :
    jget (jset o k v) k' = jget o k' :=
  assocGet_assocSet_ne o k k' v h

theorem set_two_flags_record :
    ∀ (st : FlagStore) (ns cid now1 now2 : String) (st1 st2 : FlagStore),
      set_skip_resume st ns cid true now1 = .ok st1 →
      set_keep_resources st1 ns cid true now2 = .ok st2 →
      ∀ o, read_flag st2 (flag_file ns cid) = some o →
      jget o "skip_resume" = some (.b true) ∧ jget o "keep_resources" = some (.b true) := by
  intro st ns cid now1 now2 st1 st2 h1 h2 o hr
  by_cases hh : has_flag st ns cid = true
  case neg =>
    have hh2 : has_flag st ns cid = false := by
      cases hb : has_flag st ns cid
      · rfl
      · exact absurd hb hh
    have hr0 := read_flag_none_of_no_flag st ns cid hh2
    have e1 : st1 = st := by
      unfold set_skip_resume set_flag at h1
      rw [if_pos (by simp [hh2])] at h1
      exact ((Except.ok.injEq _ _).mp h1).symm
    have e2 : st2 = st := by
      unfold set_keep_resources set_flag at h2
      rw [e1, if_pos (by simp [hh2])] at h2
      exact ((Except.ok.injEq _ _).mp h2).symm
    rw [e2, hr0] at hr
    cases hr
  case pos =>
    cases hr0 : read_flag st (flag_file ns cid) with
    | none =>
      have e1 : st1 = st := by
        unfold set_skip_resume set_flag at h1
        rw [if_neg (by simp [hh]), hr0] at h1
        exact ((Except.ok.injEq _ _).mp h1).symm
      have e2 : st2 = st := by
        unfold set_keep_resources set_flag at h2
        rw [e1, if_neg (by simp [hh]), hr0] at h2
        exact ((Except.ok.injEq _ _).mp h2).symm
      rw [e2, hr0] at hr
      cases hr
    | some o0 =>
      have hv0 : validate_flag o0 = true := read_flag_valid _ _ _ hr0
      have hv1 : validate_flag
          (jset (jset o0 "skip_resume" (.b true)) "last_updated" (.s now1)) = true :=
        validate_flag_jset _ _ _ (validate_flag_jset _ _ _ hv0)
      have e1 : st1 = storeSet st (flag_file ns cid)
          (jset (jset o0 "skip_resume" (.b true)) "last_updated" (.s now1)) := by
        have hx : Except.ok (ε := String) st1 =
            .ok (storeSet st (flag_file ns cid)
              (jset (jset o0 "skip_resume" (.b true)) "last_updated" (.s now1))) := by
          rw [← h1]
          exact set_flag_of_read st ns cid "skip_resume" (.b true) now1 o0 hh hr0
        exact (Except.ok.injEq _ _).mp hx
      have hh1 : has_flag st1 ns cid = true := by
        rw [e1]
        exact has_flag_storeSet_self st ns cid _
      have hr1 : read_flag st1 (flag_file ns cid) =
          some (jset (jset o0 "skip_resume" (.b true)) "last_updated" (.s now1)) := by
        rw [e1]
        exact read_flag_storeSet_self st (flag_file ns cid) _ hv1
      have hv2 : validate_flag
          (jset (jset (jset (jset o0 "skip_resume" (.b true)) "last_updated" (.s now1))
            "keep_resources" (.b true)) "last_updated" (.s now2)) = true :=
        validate_flag_jset _ _ _ (validate_flag_jset _ _ _ hv1)
      have e2 : st2 = storeSet st1 (flag_file ns cid)
          (jset (jset (jset (jset o0 "skip_resume" (.b true)) "last_updated" (.s now1))
            "keep_resources" (.b true)) "last_updated" (.s now2)) := by
        have hx : Except.ok (ε := String) st2 =
            .ok (storeSet st1 (flag_file ns cid)
              (jset (jset (jset (jset o0 "skip_resume" (.b true)) "last_updated" (.s now1))
                "keep_resources" (.b true)) "last_updated" (.s now2))) := by
          rw [← h2]
          exact set_flag_of_read st1 ns cid "keep_resources" (.b true) now2 _ hh1 hr1
        exact (Except.ok.injEq _ _).mp hx
      have hr2 : read_flag st2 (flag_file ns cid) =
          some (jset (jset (jset (jset o0 "skip_resume" (.b true)) "last_updated" (.s now1))
            "keep_resources" (.b true)) "last_updated" (.s now2)) := by
        rw [e2]
        exact read_flag_storeSet_self st1 (flag_file ns cid) _ hv2
      rw [hr2] at hr
      have ho : o = jset (jset (jset (jset o0 "skip_resume" (.b true)) "last_updated"
          (.s now1)) "keep_resources" (.b true)) "last_updated" (.s now2) :=
        ((Option.some.injEq _ _).mp hr).symm
      rw [ho]
      constructor
      · rw [jget_jset_ne _ _ _ _ (by decide), jget_jset_ne _ _ _ _ (by decide),
          jget_jset_ne _ _ _ _ (by decide), jget_jset_self]
      · rw [jget_jset_ne _ _ _ _ (by decide), jget_jset_self]

/-! ## Claim C4 — empty argv -/

/-- C4 (corrected), counterexample: on empty argv the parser does fail with
`EmptyCommand`, but the engine does not exit non-zero: `intercept_command`
catches the parse error and passes through to the real runtime (with an
empty argument list), contradicting the claim's "exits with a non-zero
status ... does not pass through". -/
theorem empty_argv_exit_cex :
    parse_command [] = .error "Empty command" ∧
    (intercept_command envDemo [] "t0" []).1 = .exec [] :=
  ⟨rfl, rfl⟩

/-- C4 (amended): on empty argv the parser raises `EmptyCommand`; the
engine catches the failure and passes through to the real runtime with
`args[1:]` (here the empty list), leaving the flag store untouched and
performing no other effect. -/
theorem empty_argv_passthrough :
    ∀ (env : Env) (st : FlagStore) (now : String),
      parse_command [] = .error "Empty command" ∧
      intercept_command env st now [] = (.exec [], st, []) := by
  intro env st now
  exact ⟨rfl, rfl⟩

/-! ## Claim C8 — flag-store create resets -/

/-- C8 (confirmed): `create_flag` overwrites whatever record was present
with a freshly initialized one (version `"1.0"`, all boolean flags false,
`exit_code` null); a second `create_flag` succeeds (no error) and produces
a record identical to the first except for `last_updated`. -/
theorem create_flag_reset_idempotent :
    ∀ (st : FlagStore) (ns cid t1 t2 : String),
      ∃ st1 st2,
        create_flag st ns cid t1 = .ok st1 ∧
        create_flag st1 ns cid t2 = .ok st2 ∧
        storeLookup st1 (flag_file ns cid) = some (create_initial_flag t1) ∧
        storeLookup st2 (flag_file ns cid) = some (create_initial_flag t2) ∧
        jget (create_initial_flag t1) "version" = some (.s "1.0") ∧
        jget (create_initial_flag t1) "skip_start" = some (.b false) ∧
        jget (create_initial_flag t1) "skip_resume" = some (.b false) ∧
        jget (create_initial_flag t1) "keep_resources" = some (.b false) ∧
        jget (create_initial_flag t1) "exit_code" = some .null ∧
        create_initial_flag t2 = jset (create_initial_flag t1) "last_updated" (.s t2) := by
  intro st ns cid t1 t2
  refine ⟨_, _, create_flag_eq st ns cid t1, create_flag_eq _ ns cid t2,
    ?_, ?_, ?_, ?_, ?_, ?_, ?_, ?_⟩
  · simp [storeLookup, storeSet, assocGet_assocSet_self]
  · simp [storeLookup, storeSet, assocGet_assocSet_self]
  all_goals rfl

/-! ## Claim C10 — flag setters on a missing record -/

/-- C10 (confirmed): every flag setter (`set_skip_start`,
`set_skip_resume`, `set_keep_resources`, `set_exit_code`) invoked for a
container whose flag file does not exist returns without raising and
leaves the store exactly as it was — no file is created. -/
theorem set_flag_missing_record_noop :
    ∀ (st : FlagStore) (ns cid : String) (v : Bool) (code : Int) (now : String),
      has_flag st ns cid = false →
      set_skip_start st ns cid v now = .ok st ∧
      set_skip_resume st ns cid v now = .ok st ∧
      set_keep_resources st ns cid v now = .ok st ∧
      set_exit_code st ns cid code now = .ok st := by
  intro st ns cid v code now h
  refine ⟨?_, ?_, ?_, ?_⟩ <;>
    simp [set_skip_start, set_skip_resume, set_keep_resources, set_exit_code, set_flag, h]

/-- C10 witness: the setters at a concrete missing record leave the empty
store empty and return successfully. -/
theorem set_flag_missing_record_noop_witness :
    has_flag [] "default" "c9" = false ∧
    (set_skip_start [] "default" "c9" true "t0" = .ok [] ∧
     set_skip_resume [] "default" "c9" true "t0" = .ok [] ∧
     set_keep_resources [] "default" "c9" true "t0" = .ok [] ∧
     set_exit_code [] "default" "c9" 137 "t0" = .ok []) :=
  ⟨rfl, set_flag_missing_record_noop [] "default" "c9" true 137 "t0" rfl⟩

/-! ## Claim C3 — restore command construction -/

/-- C3 (corrected), counterexample: `--debug` is a boolean global flag and
parses with empty-string value; `_build_restore_command` emits every
option as a `[key, value]` token pair, so the built command carries an
extra empty-string token, differing from the claim's "no extra tokens"
command. -/
theorem restore_command_empty_token_cex :
    parse_command ["runc", "--debug", "create", "c1"] =
      .ok ⟨"create", [("--debug", "")], [], "c1", "default"⟩ ∧
    build_restore_command "/usr/local/bin/runc.real" "c1" [("--debug", "")] [] "/cp" =
      ["/usr/local/bin/runc.real", "--debug", "", "restore", "--detach",
       "--image-path", "/cp", "c1"] ∧
    restore_command_spec "/usr/local/bin/runc.real" "c1" [("--debug", "")] [] "/cp" =
      ["/usr/local/bin/runc.real", "--debug", "restore", "--detach",
       "--image-path", "/cp", "c1"] ∧
    build_restore_command "/usr/local/bin/runc.real" "c1" [("--debug", "")] [] "/cp" ≠
      restore_command_spec "/usr/local/bin/runc.real" "c1" [("--debug", "")] [] "/cp" :=
  ⟨by decide, by decide, by decide, by decide⟩

/-- C3 (amended): when no parsed option is a boolean (empty-valued) flag,
the restore command built by the engine is exactly the claim's command:
real-runtime path, the global options, `restore`, the subcommand options,
`--detach` when absent, `--image-path <checkpoint_path>`, container id.
For boolean flags the code emits an extra empty-string token after the
flag. -/
theorem restore_command_without_boolean_flags :
    ∀ (runcPath cid : String) (gopts sopts : List (String × String)) (cp : String),
      (∀ p ∈ gopts, p.2 ≠ "") → (∀ p ∈ sopts, p.2 ≠ "") →
      build_restore_command runcPath cid gopts sopts cp =
        restore_command_spec runcPath cid gopts sopts cp := by
  intro runcPath cid gopts sopts cp hg hs
  unfold build_restore_command restore_command_spec
  rw [flatMap_single_eq_dpairs gopts hg, flatMap_single_eq_dpairs sopts hs]

/-- C3 witness: with `--root /r` and `--bundle /b` (both valued), the
built restore command coincides with the claim's command. -/
theorem restore_command_without_boolean_flags_witness :
    build_restore_command "/rr" "c1" [("--root", "/r")] [("--bundle", "/b")] "/cp" =
      restore_command_spec "/rr" "c1" [("--root", "/r")] [("--bundle", "/b")] "/cp" :=
  restore_command_without_boolean_flags "/rr" "c1" [("--root", "/r")] [("--bundle", "/b")]
    "/cp" (by decide) (by decide)

/-! ## Claim C7 — namespace extraction -/

/-- C7 (corrected), counterexample: `["runc", "--root", "/run/x/mine"]`
parses successfully with `--root` present and its value not ending in `/`,
yet the namespace is `"default"`, not the final path segment `"mine"`:
the global-only early return (line 70 of the parser) never reaches the
namespace-extraction code. -/
theorem parse_namespace_global_only_cex :
    parse_command ["runc", "--root", "/run/x/mine"] =
      .ok ⟨"", [("--root", "/run/x/mine")], [], "", "default"⟩ ∧
    namespace_spec [("--root", "/run/x/mine")] = "mine" ∧
    ("default" : String) ≠ "mine" :=
  ⟨by decide, by decide, by decide⟩

/-- C7 (amended): a parse that exhausts argv while scanning global options
(global-only invocation) always yields namespace `"default"`, whatever
`--root` holds.  A parse that reaches a subcommand yields `"default"` when
the recorded `--root` value is the empty string (the option was recorded
as boolean because the next token was an option), and otherwise follows
the claim's rule: final path segment when the value does not end in `/`,
`"default"` when it does or when the option is absent. -/
theorem parse_namespace_rule :
    ∀ (cmd : String) (rest : List String) (pc : ParsedCommand),
      parse_command (cmd :: rest) = .ok pc →
      ((parseGlobalOpts rest []).2 = [] → pc.ns = "default") ∧
      ((parseGlobalOpts rest []).2 ≠ [] →
        (dlookup pc.global_options "--root" = some "" → pc.ns = "default") ∧
        (dlookup pc.global_options "--root" ≠ some "" →
          pc.ns = namespace_spec pc.global_options)) := by
  intro cmd rest pc hp
  unfold parse_command at hp
  simp only at hp
  cases hrem : (parseGlobalOpts rest []).2 with
  | nil =>
    rw [hrem] at hp
    simp only [Except.ok.injEq] at hp
    subst hp
    exact ⟨fun _ => rfl, fun hne => absurd rfl hne⟩
  | cons sub rest2 =>
    rw [hrem] at hp
    simp only [Except.ok.injEq] at hp
    subst hp
    refine ⟨fun hnil => ?_, fun _ => ⟨fun hroot => ?_, fun hroot => ?_⟩⟩
    · cases hnil
    · show extractNamespace (parseGlobalOpts rest []).1 = "default"
      unfold extractNamespace
      rw [hroot]
      simp
    · exact extractNamespace_eq_spec _ hroot

/-- C7 witness: a create invocation with `--root /run/a/ns1` parses with
namespace `"ns1"`, in agreement with the claim's rule; a create invocation
where `--root` is followed by another option is recorded with the empty
value and parses with namespace `"default"`. -/
theorem parse_namespace_rule_witness :
    (parse_command ["runc", "--root", "/run/a/ns1", "create", "c1"] =
      .ok ⟨"create", [("--root", "/run/a/ns1")], [], "c1", "ns1"⟩) ∧
    (⟨"create", [("--root", "/run/a/ns1")], [], "c1", "ns1"⟩ : ParsedCommand).ns =
      namespace_spec [("--root", "/run/a/ns1")] ∧
    (parse_command ["runc", "--root", "--debug", "create", "c1"] =
      .ok ⟨"create", [("--root", ""), ("--debug", "")], [], "c1", "default"⟩) ∧
    (⟨"create", [("--root", ""), ("--debug", "")], [], "c1", "default"⟩ :
      ParsedCommand).ns = "default" := by
  refine ⟨by decide, ?_, by decide, ?_⟩
  · exact ((parse_namespace_rule "runc" ["--root", "/run/a/ns1", "create", "c1"]
        ⟨"create", [("--root", "/run/a/ns1")], [], "c1", "ns1"⟩ (by decide)).2
      (by decide)).2 (by decide)
  · exact ((parse_namespace_rule "runc" ["--root", "--debug", "create", "c1"]
        ⟨"create", [("--root", ""), ("--debug", "")], [], "c1", "default"⟩ (by decide)).2
      (by decide)).1 (by decide)

/-! ## Claim C5 — checkpoint validation -/

/-- C5 (corrected), counterexample: a `dump.log` whose final non-empty
line reports success but which ends with a blank line: the claim says
`validate` is true (final non-empty line contains the phrase), but the
code inspects `readlines()[-1]` — the literally last line — and returns
false. -/
theorem validate_checkpoint_nonempty_line_cex :
    validate_checkpoint fsDemo "/cp" = false ∧
    validate_checkpoint_spec fsDemo "/cp" = true :=
  ⟨by decide, by decide⟩

/-- C5 (amended): `validate(dir)` returns true iff `dir/dump.log` exists,
has at least one line, and its *last* line (stripped of whitespace)
contains the phrase "Dumping finished successfully" — the last line
simpliciter, not the last non-empty line. -/
theorem validate_checkpoint_characterization :
    ∀ (fs : TextFS) (dir : String),
      validate_checkpoint fs dir = true ↔
      ∃ content line,
        fsLookup fs (pyJoin dir "dump.log") = some content ∧
        (pyReadlines content).getLast? = some line ∧
        strContains (strTrim line) "Dumping finished successfully" = true := by
  intro fs dir
  unfold validate_checkpoint
  cases hc : fsLookup fs (pyJoin dir "dump.log") with
  | none => simp
  | some content =>
    cases hl : (pyReadlines content).getLast? with
    | none => simp [hl]
    | some line => simp [hl]

/-! ## Claim C9 — bind mount without shared filesystem -/

/-- C9 (confirmed): when the container's config does not set
`ARCH_SHAREDFS_HOST_PATH`, `add_bind_mount` returns `True` and the world
is returned exactly as it was — no mount appended, no `process.cwd`
change, nothing written; the create handler then proceeds to checkpoint
validation. -/
theorem add_bind_mount_no_sharedfs :
    ∀ (w : ConfigWorld) (cid ns : String),
      get_env_var_value w cid ns "ARCH_SHAREDFS_HOST_PATH" none = none →
      add_bind_mount w cid ns = .ok (true, w) := by
  intro w cid ns h
  unfold add_bind_mount
  rw [h]

/-- C9 witness: a concrete opted-in container config with no
`ARCH_SHAREDFS_HOST_PATH` entry — `add_bind_mount` returns true and the
world unchanged. -/
theorem add_bind_mount_no_sharedfs_witness :
    get_env_var_value worldDemo "c1" "default" "ARCH_SHAREDFS_HOST_PATH" none = none ∧
    add_bind_mount worldDemo "c1" "default" = .ok (true, worldDemo) :=
  ⟨by decide, add_bind_mount_no_sharedfs worldDemo "c1" "default" (by decide)⟩

/-! ## Claim C1 — delete with no flag record -/

/-- C1 (corrected), counterexample: a delete for an opted-in container
with no flag record does pass through, but not before `intercept_command`
creates a fresh record (its flag-ensure step runs for *every* intercepted
subcommand) whose `keep_resources` is false, so the checkpoint directory
and work directory are cleaned up — contradicting "without creating a
record and without cleaning up". -/
theorem delete_without_record_cex :
    intercept_command envDemo [] "t0" ["runc", "delete", "c1"] =
      (.exec ["delete", "c1"], [],
        [.createdFlag "default" "c1", .cleanedCheckpoint "/cp",
         .deletedWorkDir "c1" "default"]) := by decide

/-- C1 (amended): for every delete of an opted-in container with no flag
record, the engine first creates a fresh record; since its
`keep_resources` is false it cleans up the checkpoint directory (when a
path resolves) and the work directory, deletes the record again, and
passes through to the real runtime — the store is back to its initial
state but the cleanup side effects have happened. -/
theorem delete_without_record :
    ∀ (env : Env) (st : FlagStore) (now : String) (args : List String) (pc : ParsedCommand),
      parse_command args = .ok pc →
      pc.subcommand = "delete" →
      env.archEnabled pc.container_id pc.ns = true →
      has_flag st pc.ns pc.container_id = false →
      intercept_command env st now args =
        (.exec (args.drop 1), st,
          Effect.createdFlag pc.ns pc.container_id ::
            ((match env.checkpointPath pc.container_id pc.ns with
              | some cp => [Effect.cleanedCheckpoint cp]
              | none => []) ++ [Effect.deletedWorkDir pc.container_id pc.ns])) := by
  intro env st now args pc hp hsub hen hf
  rcases intercept_reduces_to_dispatch env st now args pc hp (by rw [hsub]; decide) hen with
    ⟨hft, _⟩ | ⟨_, heq⟩
  · rw [hft] at hf
    cases hf
  · have hfs := has_flag_storeSet_self st pc.ns pc.container_id (create_initial_flag now)
    have hkr := truthy_get_keep_resources_fresh st pc.ns pc.container_id now
    have hcl := clear_flag_storeSet_fresh st pc.ns pc.container_id (create_initial_flag now) hf
    have hd : dispatch_command env (storeSet st (flag_file pc.ns pc.container_id)
        (create_initial_flag now)) now pc (args.drop 1) =
        (.exec (args.drop 1), st,
          (match env.checkpointPath pc.container_id pc.ns with
           | some cp => [Effect.cleanedCheckpoint cp]
           | none => []) ++ [Effect.deletedWorkDir pc.container_id pc.ns]) := by
      unfold dispatch_command
      rw [hsub, if_neg (by decide), if_neg (by decide), if_pos rfl]
      unfold handle_delete_command
      rw [if_pos hfs, if_pos (by simp [hkr]), hcl]
    rw [heq, hd]

/-- C1 witness: a concrete delete with a resolvable checkpoint path, run
against an empty store: record created, cleanup effects emitted, record
cleared, pass-through executed. -/
theorem delete_without_record_witness :
    intercept_command envDemo [] "t1" ["runc", "--root", "/run/z/nsw", "delete", "c7"] =
      (.exec ["--root", "/run/z/nsw", "delete", "c7"], [],
        [.createdFlag "nsw" "c7", .cleanedCheckpoint "/cp",
         .deletedWorkDir "c7" "nsw"]) := by
  exact delete_without_record envDemo [] "t1"
    ["runc", "--root", "/run/z/nsw", "delete", "c7"]
    ⟨"delete", [("--root", "/run/z/nsw")], [], "c7", "nsw"⟩ (by decide) rfl rfl (by decide)

/-! ## Claim C2 — keep_resources implies skip_resume -/

/-- C2 (corrected), counterexample: a checkpoint (which sets both latches)
followed by a resume (which clears only `skip_resume`) reaches, through
the engine's own operations, a record with `keep_resources = true` and
`skip_resume = false`, refuting the claimed invariant. -/
theorem keep_resources_invariant_cex :
    truthy (get_keep_resources
      ((intercept_command envDemo
        ((intercept_command envDemo [] "t1" ["runc", "checkpoint", "c1"]).2.1)
        "t2" ["runc", "resume", "c1"]).2.1) "default" "c1") = true ∧
    truthy (get_skip_resume
      ((intercept_command envDemo
        ((intercept_command envDemo [] "t1" ["runc", "checkpoint", "c1"]).2.1)
        "t2" ["runc", "resume", "c1"]).2.1) "default" "c1") = false :=
  ⟨by decide, by decide⟩

/-- C2 (amended): immediately after a checkpoint command's flag updates
the implication holds in the strongest form — whatever record the final
store holds for the container has both `skip_resume = true` and
`keep_resources = true`; the implication is broken only later, by a resume
that clears `skip_resume` while leaving `keep_resources` set. -/
theorem keep_resources_after_checkpoint :
    ∀ (env : Env) (st : FlagStore) (now : String) (args : List String) (pc : ParsedCommand)
      (cp up : String),
      parse_command args = .ok pc →
      pc.subcommand = "checkpoint" →
      env.archEnabled pc.container_id pc.ns = true →
      env.checkpointPath pc.container_id pc.ns = some cp →
      env.upperdir pc.container_id pc.ns = some up →
      env.saveFiles up cp = true →
      ∀ o, read_flag (intercept_command env st now args).2.1
          (flag_file pc.ns pc.container_id) = some o →
        jget o "keep_resources" = some (.b true) ∧ jget o "skip_resume" = some (.b true) := by
  intro env st now args pc cp up hp hsub hen hcp hup hsave o hr
  rcases intercept_reduces_to_dispatch env st now args pc hp (by rw [hsub]; decide) hen with
    ⟨_, heq⟩ | ⟨_, heq⟩
  · obtain ⟨st1, st2, h1, h2, hd⟩ :=
      dispatch_checkpoint env st now pc (args.drop 1) cp up hsub hcp hup hsave
    rw [heq, hd] at hr
    have h := set_two_flags_record st pc.ns pc.container_id now now st1 st2 h1 h2 o hr
    exact ⟨h.2, h.1⟩
  · obtain ⟨st1, st2, h1, h2, hd⟩ :=
      dispatch_checkpoint env (storeSet st (flag_file pc.ns pc.container_id)
        (create_initial_flag now)) now pc (args.drop 1) cp up hsub hcp hup hsave
    rw [heq, hd] at hr
    have h := set_two_flags_record _ pc.ns pc.container_id now now st1 st2 h1 h2 o hr
    exact ⟨h.2, h.1⟩

/-- C2 witness: a concrete checkpoint against an empty store leaves a
record with both `skip_resume` and `keep_resources` true. -/
theorem keep_resources_after_checkpoint_witness :
    read_flag (intercept_command envDemo [] "t9" ["runc", "checkpoint", "c3"]).2.1
      (flag_file "default" "c3") =
      some [("version", .s "1.0"), ("skip_start", .b false), ("skip_resume", .b true),
            ("keep_resources", .b true), ("exit_code", .null), ("last_updated", .s "t9")] ∧
    jget [(("version" : String), JVal.s "1.0"), ("skip_start", .b false),
          ("skip_resume", .b true), ("keep_resources", .b true), ("exit_code", .null),
          ("last_updated", .s "t9")] "keep_resources" = some (.b true) ∧
    jget [(("version" : String), JVal.s "1.0"), ("skip_start", .b false),
          ("skip_resume", .b true), ("keep_resources", .b true), ("exit_code", .null),
          ("last_updated", .s "t9")] "skip_resume" = some (.b true) := by
  refine ⟨by decide, ?_, ?_⟩
  · exact (keep_resources_after_checkpoint envDemo [] "t9" ["runc", "checkpoint", "c3"]
      ⟨"checkpoint", [], [], "c3", "default"⟩ "/cp" "/up" (by decide) rfl rfl rfl rfl rfl
      _ (by decide)).1
  · exact (keep_resources_after_checkpoint envDemo [] "t9" ["runc", "checkpoint", "c3"]
      ⟨"checkpoint", [], [], "c3", "default"⟩ "/cp" "/up" (by decide) rfl rfl rfl rfl rfl
      _ (by decide)).2

/-! ## Claim C6 — modified checkpoint command -/

/-- C6 (corrected), counterexample: with the boolean global flag `--debug`
the command reaching the exec step carries an extra empty-string token
after `--debug` — global options are emitted unconditionally as
`[key, value]` pairs — contradicting "boolean global flags reproduced as
single tokens"; the subcommand-option handling (dropping `--work-path` and
`--leave-running`, re-pointing `--image-path`, boolean subcommand flags as
single tokens) does match the claim. -/
theorem checkpoint_command_empty_token_cex :
    parse_command ["runc", "--debug", "checkpoint", "--work-path", "/w",
      "--image-path", "/old", "--tcp-established", "c1"] =
      .ok ⟨"checkpoint", [("--debug", "")],
        [("--work-path", "/w"), ("--image-path", "/old"), ("--tcp-established", "")],
        "c1", "default"⟩ ∧
    "/usr/local/bin/runc.real" ::
      build_checkpoint_command "c1" [("--debug", "")]
        [("--work-path", "/w"), ("--image-path", "/old"), ("--tcp-established", "")] "/cp" =
      ["/usr/local/bin/runc.real", "--debug", "", "checkpoint", "--image-path", "/cp",
       "--tcp-established", "c1"] ∧
    checkpoint_command_spec "/usr/local/bin/runc.real" "c1" [("--debug", "")]
        [("--work-path", "/w"), ("--image-path", "/old"), ("--tcp-established", "")] "/cp" =
      ["/usr/local/bin/runc.real", "--debug", "checkpoint", "--image-path", "/cp",
       "--tcp-established", "c1"] ∧
    "/usr/local/bin/runc.real" ::
      build_checkpoint_command "c1" [("--debug", "")]
        [("--work-path", "/w"), ("--image-path", "/old"), ("--tcp-established", "")] "/cp" ≠
      checkpoint_command_spec "/usr/local/bin/runc.real" "c1" [("--debug", "")]
        [("--work-path", "/w"), ("--image-path", "/old"), ("--tcp-established", "")] "/cp" :=
  ⟨by decide, by decide, by decide, by decide⟩

/-- C6 (amended): every intercepted checkpoint command that reaches the
exec step execs the built modified command, and — when no *global* option
is a boolean (empty-valued) flag — the exec'd argv (real-runtime path
prepended by `_execute_command`) is exactly the claim's command: global
options, `checkpoint`, the subcommand options minus `--work-path` and
`--leave-running` with `--image-path` re-pointed at the resolved
checkpoint path and boolean subcommand flags as single tokens, then the
container id.  Boolean global flags additionally produce an empty-string
token. -/
theorem checkpoint_command_exec_shape :
    ∀ (env : Env) (st : FlagStore) (now : String) (args : List String)
      (pc : ParsedCommand) (cp up : String),
      parse_command args = .ok pc →
      pc.subcommand = "checkpoint" →
      env.archEnabled pc.container_id pc.ns = true →
      env.checkpointPath pc.container_id pc.ns = some cp →
      env.upperdir pc.container_id pc.ns = some up →
      env.saveFiles up cp = true →
      (∀ p ∈ pc.global_options, p.2 ≠ "") →
      (intercept_command env st now args).1 =
        .exec (build_checkpoint_command pc.container_id pc.global_options
          pc.subcommand_options cp) ∧
      env.realRunc :: build_checkpoint_command pc.container_id pc.global_options
          pc.subcommand_options cp =
        checkpoint_command_spec env.realRunc pc.container_id pc.global_options
          pc.subcommand_options cp := by
  intro env st now args pc cp up hp hsub hen hcp hup hsave hg
  constructor
  · rcases intercept_reduces_to_dispatch env st now args pc hp (by rw [hsub]; decide) hen with
      ⟨_, heq⟩ | ⟨_, heq⟩
    · obtain ⟨st1, st2, _, _, hd⟩ :=
        dispatch_checkpoint env st now pc (args.drop 1) cp up hsub hcp hup hsave
      rw [heq, hd]
    · obtain ⟨st1, st2, _, _, hd⟩ :=
        dispatch_checkpoint env (storeSet st (flag_file pc.ns pc.container_id)
          (create_initial_flag now)) now pc (args.drop 1) cp up hsub hcp hup hsave
      rw [heq, hd]
  · unfold checkpoint_command_spec build_checkpoint_command
    rw [flatMap_single_eq_dpairs pc.global_options hg]
    rfl

/-- C6 witness: a concrete checkpoint with the valued global option
`--root /r` — the engine execs the built command and the exec'd argv
equals the claim's command. -/
theorem checkpoint_command_exec_shape_witness :
    (intercept_command envDemo [] "t0" ["runc", "--root", "/r", "checkpoint", "c4"]).1 =
      .exec (build_checkpoint_command "c4" [("--root", "/r")] [] "/cp") ∧
    envDemo.realRunc :: build_checkpoint_command "c4" [("--root", "/r")] [] "/cp" =
      checkpoint_command_spec envDemo.realRunc "c4" [("--root", "/r")] [] "/cp" := by
  exact checkpoint_command_exec_shape envDemo [] "t0"
    ["runc", "--root", "/r", "checkpoint", "c4"]
    ⟨"checkpoint", [("--root", "/r")], [], "c4", "r"⟩ "/cp" "/up"
    (by decide) rfl rfl rfl rfl rfl (by decide)

end Arch
